import Mathlib

/-!
Verification of the API response-normalization and session/token-lifecycle
layer of the frontend-tsp-form repository (`src/lib/api.ts`, `src/lib/auth.ts`,
`src/lib/queryClient.ts`, `src/contexts/AuthContext.tsx`).

The source keeps several successive versions of `api.ts`. We embed the two
versions the specification's claims reference:
  - `V2`: the flat-envelope version (`parseResponseData`, `checkAuthError`);
  - `V3`: the latest nested-envelope version (`parseResponse`, `handleV2Error`,
    `isAuthError`, `getPaginated`).

JavaScript values parsed from JSON are modelled by the `Json` inductive type.
Numbers are modelled as `Int` (no claim depends on fractional values), and
ISO-8601 date strings stored in `localStorage` are modelled by their parsed
millisecond timestamps (`Option Int`), since every comparison in the source
goes through `Date#getTime`-style ordering.
-/

/-- A parsed JSON value. JavaScript arrays satisfy `typeof x === "object"`,
which `Json.isObjectLike` reflects; property lookup on an array yields
`undefined` for the string keys used by the envelope checks, which `Json.get?`
reflects by returning `none` on non-object constructors. -/
inductive Json where
  | null : Json
  | bool : Bool → Json
  | num : Int → Json
  | str : String → Json
  | arr : List Json → Json
  | obj : List (String × Json) → Json
deriving Repr

/-- Property lookup, `data[k]`: defined on objects, `undefined` (`none`)
elsewhere. -/
def Json.get? : Json → String → Option Json
  | .obj fs, k => fs.lookup k
  | _, _ => none

/-- The JavaScript `"k" in data` check. -/
def Json.hasField (j : Json) (k : String) : Bool :=
  (j.get? k).isSome

/-- The JavaScript `typeof data === "object" && data !== null` check: true for
objects and arrays. -/
def Json.isObjectLike : Json → Bool
  | .obj _ => true
  | .arr _ => true
  | _ => false

/-- True exactly on arrays (`Array.isArray`). -/
def Json.isArr : Json → Bool
  | .arr _ => true
  | _ => false

/-- True exactly on `null`. -/
def Json.isNull : Json → Bool
  | .null => true
  | _ => false

/-- The strict-equality check `data.ok === true`. -/
def Json.okIsTrue (j : Json) : Bool :=
  match j.get? "ok" with
  | some (.bool true) => true
  | _ => false

/-- The strict-equality check `data.ok === false`. -/
def Json.okIsFalse (j : Json) : Bool :=
  match j.get? "ok" with
  | some (.bool false) => true
  | _ => false

/-- Reads a string-valued field, with `""` standing for the absent /
non-string case (the claims only exercise envelopes whose `code` and
`message` fields are strings). -/
def Json.strField (j : Json) (k : String) : String :=
  match j.get? k with
  | some (.str s) => s
  | _ => ""

/-- Reads an optional string-valued field (`message_key`). -/
def Json.optStrField (j : Json) (k : String) : Option String :=
  match j.get? k with
  | some (.str s) => some s
  | _ => none

/-- The `ApiError` class, restricted to the fields the claims inspect. -/
structure ApiError where
  code : String
  message : String
  messageKey : Option String := none
  isAuthError : Bool
deriving DecidableEq, Repr

/-- `AUTH_ERROR_CODES` (identical lists in the v2 and v3 sources):
PGRST301/302/303 JWT expired or invalid, PGRST116 JWT required. -/
def AUTH_ERROR_CODES : List String :=
  ["PGRST301", "PGRST302", "PGRST303", "PGRST116"]

/-- `AUTH_ERROR_MESSAGES` (identical lists in the v2 and v3 sources). -/
def AUTH_ERROR_MESSAGES : List String :=
  ["AUTH_SESSION_REVOKED", "AUTH_SESSION_EXPIRED", "AUTH_INVALID_REFRESH", "JWT expired"]

/-- JavaScript `haystack.includes(needle)`: some suffix-dropping position of
`haystack` starts with `needle`. -/
def strContains (haystack needle : String) : Bool :=
  (List.range (haystack.toList.length + 1)).any
    (fun i => needle.toList.isPrefixOf (haystack.toList.drop i))

namespace V2

/-- `isPostgRESTError` of the v2 source: an object-like value with `code` and
`message` fields and no `ok` field. -/
def isPostgRESTError (data : Json) : Bool :=
  data.isObjectLike && data.hasField "code" && data.hasField "message" && !data.hasField "ok"

/-- `isV2Success` of the v2 source: `{ok: true, data, ...}`. -/
def isV2Success (data : Json) : Bool :=
  data.isObjectLike && data.okIsTrue && data.hasField "data"

/-- `isV2Error` of the v2 source (flat error envelope): `{ok: false, code, ...}`. -/
def isV2Error (data : Json) : Bool :=
  data.isObjectLike && data.okIsFalse && data.hasField "code"

/-- `checkAuthError` of the v2 source: member of the fixed code set, or the
generic `P0001` raised-exception code with a listed substring in the message. -/
def checkAuthError (code message : String) : Bool :=
  if AUTH_ERROR_CODES.contains code then true
  else if code = "P0001" then AUTH_ERROR_MESSAGES.any (fun m => strContains message m)
  else false

/-- `parseResponseData` of the v2 source, on a 2xx body. The result pairs the
normalized value (or thrown `ApiError`) with whether `triggerAuthError` fired. -/
def parseResponseData (data : Json) : Except ApiError Json × Bool :=
  if isV2Error data then
    let isAuth := checkAuthError (data.strField "code") (data.strField "message")
    (Except.error
      { code := data.strField "code", message := data.strField "message",
        messageKey := data.optStrField "message_key", isAuthError := isAuth },
      isAuth)
  else if isV2Success data then
    (Except.ok ((data.get? "data").getD Json.null), false)
  else if data.isArr && (match data with | .arr xs => xs.length == 1 | _ => false) then
    (Except.ok (match data with | .arr (x :: _) => x | _ => Json.null), false)
  else
    (Except.ok data, false)

/-- The response-dispatch half of `ApiClient.request` in the v2 source:
`httpOk` is `response.ok`, `status` is `response.status`, `data` the parsed
body. On a non-2xx status the body is classified before the normalizer ever
runs; on 2xx it is handed to `parseResponseData`. -/
def request (httpOk : Bool) (status : Nat) (data : Json) : Except ApiError Json × Bool :=
  if !httpOk then
    if isPostgRESTError data then
      let isAuth := checkAuthError (data.strField "code") (data.strField "message") || status == 401
      (Except.error
        { code := data.strField "code", message := data.strField "message",
          isAuthError := isAuth },
        isAuth)
    else
      (Except.error
        { code := "HTTP_ERROR",
          message := "Request failed with status " ++ toString status,
          isAuthError := status == 401 },
        status == 401)
  else parseResponseData data

end V2

namespace V3

/-- `isV2Success` of the v3 source: `{ok: true, data, ...}`. -/
def isV2Success (data : Json) : Bool :=
  data.isObjectLike && data.okIsTrue && data.hasField "data"

/-- `isV2Error` of the v3 source (nested error envelope):
`{ok: false, error: {...}}` where `typeof error === "object"` (a check that
also accepts `null`, faithfully modelled here). -/
def isV2Error (data : Json) : Bool :=
  data.isObjectLike && data.okIsFalse &&
    (match data.get? "error" with
     | some e => e.isObjectLike || e.isNull
     | none => false)

/-- `isAuthError` of the v3 source: member of the fixed code set, or any code
whose message contains a listed session-revocation substring. -/
def isAuthError (code message : String) : Bool :=
  if AUTH_ERROR_CODES.contains code then true
  else if AUTH_ERROR_MESSAGES.any (fun m => strContains message m) then true
  else false

/-- `handleV2Error` of the v3 source: builds the thrown `ApiError` from the
nested error object and reports whether `triggerAuthError` fired. The auth
decision is `isAuthError(err.code, err.message) || httpStatus === 401`. -/
def handleV2Error (err : Json) (httpStatus : Option Nat) : ApiError × Bool :=
  let auth := isAuthError (err.strField "code") (err.strField "message") || httpStatus == some 401
  ({ code := err.strField "code", message := err.strField "message",
     messageKey := err.optStrField "message_key", isAuthError := auth }, auth)

/-- `parseResponse` of the v3 source, on a 2xx body (the `endpoint` argument
of the source is only used for a diagnostic log and is omitted). Arrays of
every length pass through unchanged. -/
def parseResponse (data : Json) : Except ApiError Json × Bool :=
  if isV2Error data then
    let r := handleV2Error ((data.get? "error").getD Json.null) none
    (Except.error r.1, r.2)
  else if isV2Success data then
    (Except.ok ((data.get? "data").getD Json.null), false)
  else if data.isArr then
    (Except.ok data, false)
  else
    (Except.ok data, false)

/-- `handleNonV2Error` of the v3 source: the generic error thrown for a
non-2xx response whose body is not a nested v2 error envelope. -/
def handleNonV2Error (endpoint : String) (status : Nat) : ApiError × Bool :=
  ({ code := "HTTP_" ++ toString status,
     message := "Request failed: " ++ endpoint ++ " (HTTP " ++ toString status ++ ")",
     isAuthError := status == 401 },
   status == 401)

/-- The response-dispatch half of `ApiClient.request` in the v3 source. -/
def request (httpOk : Bool) (status : Nat) (endpoint : String) (data : Json) :
    Except ApiError Json × Bool :=
  if !httpOk then
    if isV2Error data then
      let r := handleV2Error ((data.get? "error").getD Json.null) (some status)
      (Except.error r.1, r.2)
    else
      let r := handleNonV2Error endpoint status
      (Except.error r.1, r.2)
  else parseResponse data

end V3

/-!
Token Store (`src/lib/auth.ts`). The five `localStorage` keys are the fields
of `TokenStorage`. The ISO date strings under `expires_at` and
`refresh_expires_at` are modelled by their parsed millisecond timestamps.
-/

/-- The per-origin persistent storage: exactly the five keys the core writes. -/
structure TokenStorage where
  access_token : Option String := none
  refresh_token : Option String := none
  expires_at : Option Int := none
  refresh_expires_at : Option Int := none
  user_id : Option String := none
deriving DecidableEq, Repr

/-- The guard in `getAccessToken`/`getRefreshToken` against missing values and
the sentinel strings a past bug wrote: `!token || token === "undefined" ||
token === "null"` yields `null` (the empty string is falsy in JavaScript). -/
def sentinelFiltered : Option String → Option String
  | none => none
  | some t => if t = "" || t = "undefined" || t = "null" then none else some t

/-- `authService.getAccessToken`. -/
def TokenStorage.getAccessToken (st : TokenStorage) : Option String :=
  sentinelFiltered st.access_token

/-- `authService.getRefreshToken`. -/
def TokenStorage.getRefreshToken (st : TokenStorage) : Option String :=
  sentinelFiltered st.refresh_token

/-- `authService.getExpiresAt` (parsing abstracted: the stored ISO string is
already carried as a timestamp). -/
def TokenStorage.getExpiresAt (st : TokenStorage) : Option Int :=
  st.expires_at

/-- `authService.getRefreshExpiresAt`. -/
def TokenStorage.getRefreshExpiresAt (st : TokenStorage) : Option Int :=
  st.refresh_expires_at

/-- `TOKEN_REFRESH_THRESHOLD_MS`: refresh one minute before expiry. -/
def TOKEN_REFRESH_THRESHOLD_MS : Int := 60 * 1000

/-- `authService.isTokenExpired`: no known expiry counts as expired
(fail-closed); otherwise `new Date() >= expiresAt`. -/
def TokenStorage.isTokenExpired (st : TokenStorage) (now : Int) : Bool :=
  match st.getExpiresAt with
  | none => true
  | some e => decide (now ≥ e)

/-- `authService.shouldRefreshToken`: no known expiry yields `false`;
otherwise `expiresAt - now <= TOKEN_REFRESH_THRESHOLD_MS`. Note the source
places no lower bound on `expiresAt - now`. -/
def TokenStorage.shouldRefreshToken (st : TokenStorage) (now : Int) : Bool :=
  match st.getExpiresAt with
  | none => false
  | some e => decide (e - now ≤ TOKEN_REFRESH_THRESHOLD_MS)

/-- `authService.isRefreshTokenExpired`: the same fail-closed rule on the
refresh token's own expiry. -/
def TokenStorage.isRefreshTokenExpired (st : TokenStorage) (now : Int) : Bool :=
  match st.getRefreshExpiresAt with
  | none => true
  | some e => decide (now ≥ e)

/-- The fields of a login/refresh RPC response that `storeTokens` persists. -/
structure TokenResponse where
  user_id : Int
  access_token : String
  expires_at : Int
  refresh_token : String
  refresh_expires_at : Int
deriving DecidableEq, Repr

/-- `authService.storeTokens`: writes all five keys. -/
def TokenStorage.storeTokens (st : TokenStorage) (r : TokenResponse) : TokenStorage :=
  { st with
    access_token := some r.access_token,
    refresh_token := some r.refresh_token,
    expires_at := some r.expires_at,
    refresh_expires_at := some r.refresh_expires_at,
    user_id := some (toString r.user_id) }

/-- `authService.clearTokens`: removes all five keys. -/
def TokenStorage.clearTokens (_st : TokenStorage) : TokenStorage :=
  {}

/-- `authService.validateAndRefresh`. The outcome of the refresh RPC, were it
to be issued, is supplied as `refreshRpc` (the network is external to the
model); on success `refresh()` persists the returned pair via `storeTokens`,
on failure the `catch` clears all tokens. Returns the boolean result paired
with the storage after the call. -/
def validateAndRefresh (st : TokenStorage) (now : Int)
    (refreshRpc : Except ApiError TokenResponse) : Bool × TokenStorage :=
  if st.getAccessToken.isNone || st.getRefreshToken.isNone then
    (false, st.clearTokens)
  else if st.isRefreshTokenExpired now then
    (false, st.clearTokens)
  else if st.isTokenExpired now || st.shouldRefreshToken now then
    match refreshRpc with
    | .ok r => (true, st.storeTokens r)
    | .error _ => (false, st.clearTokens)
  else
    (true, st)

/-- `authService.logout`: best-effort logout RPC (only attempted when a
refresh token is present, its failure swallowed by the `catch`), then
`clearTokens` unconditionally. The result is `Except` to record that the
function itself never throws. -/
def authLogout (st : TokenStorage) (logoutRpc : Except ApiError Unit) :
    Except ApiError TokenStorage :=
  match st.getRefreshToken with
  | some _ =>
    match logoutRpc with
    | .ok _ => .ok st.clearTokens
    | .error _ => .ok st.clearTokens
  | none => .ok st.clearTokens

/-- A capability row of the `me()` response. -/
structure Capability where
  code : String
  description : String
deriving DecidableEq, Repr

/-- The `me()` identity payload (`UserInfo` in `auth.ts`). -/
structure UserInfo where
  user_id : Int
  sid : String
  role_code : String
  holding_id : Option Int
  company_id : Option Int
  branch_id : Option Int
  capabilities : List Capability
deriving DecidableEq, Repr

/-- The `switch_holding` RPC response. -/
structure SwitchHoldingResponse where
  user_id : Int
  access_token : String
  token_type : String
  expires_at : Int
deriving DecidableEq, Repr

/-- The storage write of `authService.switchHolding`: only `access_token` and
`expires_at` are overwritten; the other three keys are untouched. -/
def switchHoldingStore (st : TokenStorage) (r : SwitchHoldingResponse) : TokenStorage :=
  { st with access_token := some r.access_token, expires_at := some r.expires_at }

/-- The session state the `AuthContext` provider holds. -/
structure SessionState where
  user : Option UserInfo := none
  needsHoldingSelect : Bool := false
deriving DecidableEq, Repr

/-- The observable outcome of a context-level operation: the persistent
storage after the call, the provider session state after the call, and the
error the call threw to its caller, if any. -/
structure CallResult where
  storage : TokenStorage
  session : SessionState
  thrown : Option ApiError
deriving DecidableEq, Repr

/-- `AuthContext.logout`: awaits `authService.logout`, then clears `user` and
`needsHoldingSelect`. -/
def contextLogout (st : TokenStorage) (sess : SessionState)
    (logoutRpc : Except ApiError Unit) : CallResult :=
  match authLogout st logoutRpc with
  | .ok st2 => ⟨st2, { user := none, needsHoldingSelect := false }, none⟩
  | .error e => ⟨st, sess, some e⟩

/-- `AuthContext.switchHolding`: awaits the switch RPC (a failure propagates
before anything is persisted), persists only the access token and expiry,
then awaits `me()` (a failure propagates, with the storage write already
made), stores the fetched identity and leaves the holding-selection
sub-state. -/
def contextSwitchHolding (st : TokenStorage) (sess : SessionState)
    (switchRpc : Except ApiError SwitchHoldingResponse)
    (meRpc : Except ApiError UserInfo) : CallResult :=
  match switchRpc with
  | .error e => ⟨st, sess, some e⟩
  | .ok r =>
    match meRpc with
    | .error e => ⟨switchHoldingStore st r, sess, some e⟩
    | .ok info => ⟨switchHoldingStore st r, { user := some info, needsHoldingSelect := false }, none⟩

/-!
Single-flight refresh (`src/lib/queryClient.ts`). JavaScript runs on a
single-threaded event loop: the body of `ensureValidToken` up to its first
`await` executes atomically, so each concurrent caller is one atomic step
over the module-level `isRefreshing`/`refreshPromise` pair. A step either
returns a boolean immediately or comes to await a promise; promise
identities are numbered, and `refreshCalls` counts how many underlying
`validateAndRefresh` invocations (each issuing at most one refresh network
call) were started.
-/

/-- The module-level mutable state of `queryClient.ts`, plus instrumentation:
`refreshCalls` counts started `validateAndRefresh` invocations, and
`nextPromiseId` numbers the promises they return. -/
structure SFState where
  isRefreshing : Bool := false
  refreshPromise : Option Nat := none
  refreshCalls : Nat := 0
  nextPromiseId : Nat := 0
deriving DecidableEq, Repr

/-- What a caller of `ensureValidToken` comes to observe: an immediately
resolved boolean, or the boolean that the identified shared promise will
resolve to. -/
inductive EnsureOutcome where
  | immediate : Bool → EnsureOutcome
  | awaitPromise : Nat → EnsureOutcome
deriving DecidableEq, Repr

/-- One synchronous execution of `ensureValidToken` against fixed storage
`st` at time `now`: no access token resolves `false` at once; a needed
refresh joins the in-flight promise when `isRefreshing && refreshPromise`
holds, and otherwise starts a fresh `validateAndRefresh` call; a valid token
resolves `true` without any call. -/
def ensureValidToken (st : TokenStorage) (now : Int) (s : SFState) :
    EnsureOutcome × SFState :=
  if st.getAccessToken.isNone then
    (.immediate false, s)
  else if st.shouldRefreshToken now || st.isTokenExpired now then
    if s.isRefreshing && s.refreshPromise.isSome then
      (.awaitPromise (s.refreshPromise.getD 0), s)
    else
      (.awaitPromise s.nextPromiseId,
       { isRefreshing := true, refreshPromise := some s.nextPromiseId,
         refreshCalls := s.refreshCalls + 1, nextPromiseId := s.nextPromiseId + 1 })
  else
    (.immediate true, s)

/-- `n` callers of `ensureValidToken` running their synchronous steps one
after another (the event-loop interleaving), collecting each caller's
observed outcome. -/
def runEnsure (st : TokenStorage) (now : Int) : Nat → SFState → List EnsureOutcome × SFState
  | 0, s => ([], s)
  | n + 1, s =>
    let r := ensureValidToken st now s
    let rest := runEnsure st now n r.2
    (r.1 :: rest.1, rest.2)

/-!
Session Controller (`src/contexts/AuthContext.tsx`): the three boolean flags,
the session, the storage and a redirect counter, with the auth-error handler
and the `login()` control flow as state transitions.
-/

/-- The provider-level state of `AuthContext.tsx`: the three refs
(`isLoginInProgress`, `suppressAuthRedirect`, `hasHandledAuthError`), the
React session state, the persistent storage, and a count of full navigations
to the login screen. -/
structure CtxState where
  isLoginInProgress : Bool := false
  suppressAuthRedirect : Bool := false
  hasHandledAuthError : Bool := false
  user : Option UserInfo := none
  needsHoldingSelect : Bool := false
  storage : TokenStorage := {}
  redirects : Nat := 0
deriving DecidableEq, Repr

/-- `handleAuthError` of `AuthContext.tsx`: returns untouched while
`isLoginInProgress` or `suppressAuthRedirect` is set, or when the one-shot
`hasHandledAuthError` latch is already taken; otherwise takes the latch,
clears tokens and user, and navigates to the login screen (carrying the error
code and message as query parameters, not modelled beyond the count). -/
def handleAuthError (s : CtxState) : CtxState :=
  if s.isLoginInProgress || s.suppressAuthRedirect then s
  else if s.hasHandledAuthError then s
  else
    { s with
      hasHandledAuthError := true,
      storage := s.storage.clearTokens,
      user := none,
      redirects := s.redirects + 1 }

/-- The `login` RPC response (`LoginResponse` in `auth.ts`). -/
structure LoginResponse where
  user_id : Int
  holding_id : Option Int
  role_code : String
  access_token : String
  token_type : String
  expires_at : Int
  refresh_token : String
  refresh_expires_at : Int
deriving DecidableEq, Repr

/-- The token fields `authService.login` passes to `storeTokens`. -/
def LoginResponse.toTokenResponse (r : LoginResponse) : TokenResponse :=
  { user_id := r.user_id, access_token := r.access_token, expires_at := r.expires_at,
    refresh_token := r.refresh_token, refresh_expires_at := r.refresh_expires_at }

/-- The provisional session `login()` builds from the login response fields
alone (no `me()` call yet): empty sid, no company/branch, no capabilities. -/
def provisionalUser (r : LoginResponse) : UserInfo :=
  { user_id := r.user_id, sid := "", role_code := r.role_code,
    holding_id := r.holding_id, company_id := none, branch_id := none,
    capabilities := [] }

/-- `login()` entry: sets the `isLoginInProgress` ref. -/
def loginStart (s : CtxState) : CtxState :=
  { s with isLoginInProgress := true }

/-- The synchronous continuation of `login()` after the login RPC resolved:
`authService.login` has persisted the token pair, the provisional session is
installed, and (when `holding_id` is non-null) the background `me()` fetch is
spawned without being awaited. -/
def loginRpcResolved (s : CtxState) (resp : LoginResponse) : CtxState :=
  { s with
    storage := s.storage.storeTokens resp.toTokenResponse,
    user := some (provisionalUser resp),
    needsHoldingSelect := resp.holding_id.isNone }

/-- The `finally` block of `login()`: clears the `isLoginInProgress` ref. It
runs when `login()` returns — before any background `me()` settlement, since
that settlement needs at least one further event-loop turn. -/
def loginFinally (s : CtxState) : CtxState :=
  { s with isLoginInProgress := false }

/-- The background `me()` fetch rejecting with an auth error (HTTP 401): the
transport invokes the registered global handler before throwing, and the
`.catch` of the background fetch then swallows the rejection without touching
any state. -/
def bgMeAuthRejected (s : CtxState) : CtxState :=
  handleAuthError s

/-- The complete forced execution order of the claim-C5 scenario: `login()`
starts, its RPC resolves (spawning the background `me()` fetch), its
`finally` clears the login guard, and only then does the background fetch
reject with a 401. -/
def loginBg401Trace (s : CtxState) (resp : LoginResponse) : CtxState :=
  bgMeAuthRejected (loginFinally (loginRpcResolved (loginStart s) resp))

/-!
Paginated fetch (`ApiClient.getPaginated` of the v3 source).
-/

/-- `offset = (page - 1) * pageSize`. -/
def paginationOffset (page pageSize : Int) : Int :=
  (page - 1) * pageSize

/-- `rangeEnd = offset + pageSize - 1`. -/
def paginationRangeEnd (page pageSize : Int) : Int :=
  paginationOffset page pageSize + pageSize - 1

/-- The `Range` request-header value, `"offset-rangeEnd"`. -/
def rangeHeaderValue (page pageSize : Int) : String :=
  toString (paginationOffset page pageSize) ++ "-" ++ toString (paginationRangeEnd page pageSize)

/-- The pagination-specific request headers `getPaginated` adds on top of
content-type and authorization. -/
def getPaginatedHeaders (page pageSize : Int) : List (String × String) :=
  [("Range-Unit", "items"),
   ("Range", rangeHeaderValue page pageSize),
   ("Prefer", "count=exact")]

/-- The numeric value of one decimal digit character (`parseInt` digit step). -/
def digitValue (c : Char) : Nat :=
  c.toNat - 48

/-- `parseInt(s, 10)` on a pure digit string. -/
def digitsToNat (ds : List Char) : Nat :=
  ds.foldl (fun acc c => acc * 10 + digitValue c) 0

/-- The regex search `/\/(\d+)/`: the first position holding a `/` followed
by at least one digit wins, and the capture is the maximal digit run after
that slash. -/
def firstSlashDigits : List Char → Option (List Char)
  | [] => none
  | c :: rest =>
    if c = '/' then
      let ds := rest.takeWhile (fun d => d.isDigit)
      if ds.isEmpty then firstSlashDigits rest else some ds
    else firstSlashDigits rest

/-- `contentRange.match(/\/(\d+)/)` over `response.headers.get("Content-Range")
?? ""`, then `parseInt(match[1], 10)`. -/
def parseTotalFromContentRange (header : Option String) : Option Nat :=
  (firstSlashDigits (header.getD "").toList).map digitsToNat

/-- The `totalCount` computation of `getPaginated`: the parsed header total
when the regex matches, otherwise the body length for an array body and `0`
otherwise. -/
def totalCount (header : Option String) (data : Json) : Nat :=
  match parseTotalFromContentRange header with
  | some t => t
  | none =>
    match data with
    | .arr xs => xs.length
    | _ => 0

/-- The response half of `getPaginated`: the non-2xx path mirrors `request`,
and the 2xx path pairs the parsed body with `totalCount`. -/
def getPaginatedResult (httpOk : Bool) (status : Nat) (endpoint : String)
    (contentRange : Option String) (data : Json) :
    Except ApiError (Json × Nat) × Bool :=
  if !httpOk then
    if V3.isV2Error data then
      let r := V3.handleV2Error ((data.get? "error").getD Json.null) (some status)
      (Except.error r.1, r.2)
    else
      let r := V3.handleNonV2Error endpoint status
      (Except.error r.1, r.2)
  else
    let tc := totalCount contentRange data
    match V3.parseResponse data with
    | (.ok v, trig) => (Except.ok (v, tc), trig)
    | (.error e, trig) => (Except.error e, trig)

/-- The canonical decimal digit character of a value below ten. -/
def digitChar (d : Nat) : Char :=
  if d = 0 then '0' else if d = 1 then '1' else if d = 2 then '2'
  else if d = 3 then '3' else if d = 4 then '4' else if d = 5 then '5'
  else if d = 6 then '6' else if d = 7 then '7' else if d = 8 then '8' else '9'

/-- The decimal representation of a natural number as a digit-character list,
used to state the shape `"start-end/total"` of a well-formed `Content-Range`
header. -/
def natDigits (n : Nat) : List Char :=
  if _h : n < 10 then [digitChar n]
  else natDigits (n / 10) ++ [digitChar (n % 10)]
decreasing_by exact Nat.div_lt_self (by omega) (by omega)

/-- The combined auth-error decision for a v3 error envelope, exactly as the
`handleV2Error` call site computes it:
`isAuthError(err.code, err.message) || httpStatus === 401`. -/
def isAuthErrorWithStatus (code message : String) (httpStatus : Option Nat) : Bool :=
  V3.isAuthError code message || httpStatus == some 401

/-- A flat v2 error body `{ok: false, code, message}`. -/
def flatErrorBody (code message : String) : Json :=
  Json.obj [("ok", Json.bool false), ("code", Json.str code), ("message", Json.str message)]

/-- A nested v3 error body `{ok: false, error: {code, message}}`. -/
def nestedErrorBody (code message : String) : Json :=
  Json.obj [("ok", Json.bool false),
            ("error", Json.obj [("code", Json.str code), ("message", Json.str message)])]

/-!
Helper lemmas.
-/

theorem sentinelFiltered_isNone_of_none : sentinelFiltered none = none := rfl

theorem digitsToNat_append (xs : List Char) (c : Char) :
    digitsToNat (xs ++ [c]) = digitsToNat xs * 10 + digitValue c := by
  simp [digitsToNat, List.foldl_append]

theorem digitValue_digitChar (d : Nat) (h : d < 10) : digitValue (digitChar d) = d := by
  interval_cases d <;> decide

theorem isDigit_digitChar (d : Nat) (h : d < 10) : (digitChar d).isDigit = true := by
  interval_cases d <;> decide

theorem digitsToNat_natDigits (n : Nat) : digitsToNat (natDigits n) = n := by
  induction n using Nat.strong_induction_on with
  | _ n ih =>
    rw [natDigits]
    split
    next h => simp [digitsToNat, digitValue_digitChar n h]
    next h =>
      rw [digitsToNat_append, ih (n / 10) (Nat.div_lt_self (by omega) (by omega)),
        digitValue_digitChar _ (Nat.mod_lt n (by omega))]
      omega

theorem isDigit_of_mem_natDigits (n : Nat) : ∀ c ∈ natDigits n, c.isDigit = true := by
  induction n using Nat.strong_induction_on with
  | _ n ih =>
    rw [natDigits]
    split
    next h => intro c hc; simp at hc; subst hc; exact isDigit_digitChar n h
    next h =>
      intro c hc
      simp at hc
      rcases hc with hc | hc
      · exact ih (n / 10) (Nat.div_lt_self (by omega) (by omega)) c hc
      · subst hc; exact isDigit_digitChar _ (Nat.mod_lt n (by omega))

theorem natDigits_ne_nil (n : Nat) : natDigits n ≠ [] := by
  rw [natDigits]
  split <;> simp

theorem ne_slash_of_isDigit (c : Char) (h : c.isDigit = true) : c ≠ '/' := by
  intro heq
  rw [heq] at h
  exact absurd h (by decide)

theorem takeWhile_all_of (l : List Char) (p : Char → Bool)
    (h : ∀ c ∈ l, p c = true) : l.takeWhile p = l :=
  List.takeWhile_eq_self_iff.mpr h

theorem firstSlashDigits_clean_prefix (pre ds : List Char)
    (hpre : ∀ c ∈ pre, c ≠ '/')
    (hds : ∀ c ∈ ds, c.isDigit = true) (hne : ds ≠ []) :
    firstSlashDigits (pre ++ '/' :: ds) = some ds := by
  induction pre with
  | nil =>
    rw [List.nil_append, firstSlashDigits]
    rw [takeWhile_all_of ds _ hds]
    simp [hne]
  | cons c cs ih =>
    rw [List.cons_append, firstSlashDigits]
    simp [hpre c (by simp)]
    exact ih (fun x hx => hpre x (by simp [hx]))

/-!
Claim theorems.
-/

/-- C1 (counterexample): the latest normalizer `parseResponse` does NOT
return the single element of a length-1 success array — it returns the array
unchanged, refuting the claim as stated for `parseResponse`. -/
theorem C1_parseResponse_keeps_singleton :
    V3.parseResponse (Json.arr [Json.num 7]) = (Except.ok (Json.arr [Json.num 7]), false)
    ∧ Json.arr [Json.num 7] ≠ Json.num 7 :=
  ⟨rfl, fun h => Json.noConfusion h⟩

/-- C1 (amended): on 2xx bodies the v2 normalizer `parseResponseData` unwraps
an array of length exactly 1 to its single element and passes every other
array through unchanged, while the latest normalizer `parseResponse` passes
every array (any length) through unchanged; and on an error HTTP status both
`request` versions never consult array shape — the thrown error is a fixed
generic HTTP error independent of the array's contents and length. -/
theorem C1_normalizer_array_handling (x : Json) (xs : List Json) (status : Nat)
    (endpoint : String) :
    V2.parseResponseData (Json.arr [x]) = (Except.ok x, false)
    ∧ (xs.length ≠ 1 → V2.parseResponseData (Json.arr xs) = (Except.ok (Json.arr xs), false))
    ∧ V3.parseResponse (Json.arr xs) = (Except.ok (Json.arr xs), false)
    ∧ V2.request false status (Json.arr xs) =
        (Except.error
          { code := "HTTP_ERROR",
            message := "Request failed with status " ++ toString status,
            isAuthError := status == 401 }, status == 401)
    ∧ V3.request false status endpoint (Json.arr xs) =
        (Except.error (V3.handleNonV2Error endpoint status).1,
          (V3.handleNonV2Error endpoint status).2) := by
  refine ⟨?_, fun h => ?_, ?_, ?_, ?_⟩
  · simp [V2.parseResponseData, V2.isV2Error, V2.isV2Success, Json.isObjectLike,
      Json.okIsFalse, Json.okIsTrue, Json.get?, Json.isArr, Json.hasField]
  · have hbeq : (xs.length == 1) = false := by simpa using h
    simp [V2.parseResponseData, V2.isV2Error, V2.isV2Success, Json.isObjectLike,
      Json.okIsFalse, Json.okIsTrue, Json.get?, Json.isArr, Json.hasField, hbeq]
  · simp [V3.parseResponse, V3.isV2Error, V3.isV2Success, Json.isObjectLike,
      Json.okIsFalse, Json.okIsTrue, Json.get?, Json.isArr, Json.hasField]
  · simp [V2.request, V2.isPostgRESTError, Json.isObjectLike, Json.hasField, Json.get?]
  · simp [V3.request, V3.isV2Error, Json.isObjectLike, Json.okIsFalse, Json.get?,
      V3.handleNonV2Error]

/-- C1 (witness): the amended theorem applied at the empty array with status
500. -/
theorem C1_normalizer_array_handling_witness :
    V2.parseResponseData (Json.arr [Json.num 3]) = (Except.ok (Json.num 3), false)
    ∧ V2.parseResponseData (Json.arr []) = (Except.ok (Json.arr []), false)
    ∧ V3.parseResponse (Json.arr [Json.num 3]) = (Except.ok (Json.arr [Json.num 3]), false) :=
  ⟨(C1_normalizer_array_handling (Json.num 3) [] 500 "/e").1,
   (C1_normalizer_array_handling (Json.num 3) [] 500 "/e").2.1 (by decide),
   (C1_normalizer_array_handling (Json.num 3) [Json.num 3] 500 "/e").2.2.1⟩

/-- C2: the v3 auth-error classifier, combined with the `httpStatus === 401`
check at its `handleV2Error` call site, is true for every code in the fixed
set regardless of message, true at HTTP 401 regardless of code, true whenever
the message contains a listed session-revocation substring regardless of
code, and false for any other code/message on a non-401 status (in particular
for ordinary validation or not-found errors with non-401 4xx statuses). -/
theorem C2_isAuthError_spec (code message : String) (status : Option Nat) :
    (AUTH_ERROR_CODES.contains code = true → isAuthErrorWithStatus code message status = true)
    ∧ isAuthErrorWithStatus code message (some 401) = true
    ∧ (AUTH_ERROR_MESSAGES.any (fun m => strContains message m) = true →
        isAuthErrorWithStatus code message status = true)
    ∧ (AUTH_ERROR_CODES.contains code = false →
        AUTH_ERROR_MESSAGES.any (fun m => strContains message m) = false →
        status ≠ some 401 →
        isAuthErrorWithStatus code message status = false) := by
  refine ⟨fun h1 => ?_, ?_, fun h2 => ?_, fun h3 h4 h5 => ?_⟩
  · simp [isAuthErrorWithStatus, V3.isAuthError]
    exact Or.inl (Or.inl (by simpa using h1))
  · simp [isAuthErrorWithStatus]
  · simp [isAuthErrorWithStatus, V3.isAuthError]
    exact Or.inl (Or.inr (by simpa using h2))
  · simp [isAuthErrorWithStatus, V3.isAuthError, h5]
    exact ⟨by simpa using h3, by simpa using h4⟩

/-- C2 (witness): the classifier at a fixed auth code, at the generic P0001
code with a session-revocation message, and at an ordinary database error
code with a 404 status. -/
theorem C2_isAuthError_spec_witness :
    isAuthErrorWithStatus "PGRST301" "anything" none = true
    ∧ isAuthErrorWithStatus "P0001" "error: AUTH_SESSION_EXPIRED" none = true
    ∧ isAuthErrorWithStatus "22P02" "invalid input syntax" (some 404) = false :=
  ⟨(C2_isAuthError_spec "PGRST301" "anything" none).1 (by decide),
   (C2_isAuthError_spec "P0001" "error: AUTH_SESSION_EXPIRED" none).2.2.1 (by decide),
   (C2_isAuthError_spec "22P02" "invalid input syntax" (some 404)).2.2.2
     (by decide) (by decide) (by decide)⟩

theorem runEnsure_joins (st : TokenStorage) (now : Int) (p : Nat)
    (hTok : st.getAccessToken.isSome = true)
    (hNeed : (st.shouldRefreshToken now || st.isTokenExpired now) = true) :
    ∀ (n : Nat) (s : SFState), s.isRefreshing = true → s.refreshPromise = some p →
      runEnsure st now n s = (List.replicate n (EnsureOutcome.awaitPromise p), s) := by
  intro n
  induction n with
  | zero => intro s _ _; rfl
  | succ k ih =>
    intro s h1 h2
    obtain ⟨t, ht⟩ := Option.isSome_iff_exists.mp hTok
    have hstep : ensureValidToken st now s = (EnsureOutcome.awaitPromise p, s) := by
      simp [ensureValidToken, ht, hNeed, h1, h2]
    simp [runEnsure, hstep, ih s h1 h2, List.replicate_succ]

/-- C3: while a refresh is in flight, every further caller of
`ensureValidToken` joins the promise of the one underlying
`validateAndRefresh` invocation: starting idle, `n + 1` interleaved callers
against storage that holds an access token needing refresh all come to await
promise `0`, and exactly one underlying refresh call is started — so all
callers observe the one boolean that promise resolves to. -/
theorem C3_ensureValidToken_single_flight (st : TokenStorage) (now : Int) (n : Nat)
    (hTok : st.getAccessToken.isSome = true)
    (hNeed : (st.shouldRefreshToken now || st.isTokenExpired now) = true) :
    (runEnsure st now (n + 1) {}).1 = List.replicate (n + 1) (EnsureOutcome.awaitPromise 0)
    ∧ (runEnsure st now (n + 1) {}).2.refreshCalls = 1 := by
  obtain ⟨t, ht⟩ := Option.isSome_iff_exists.mp hTok
  have hstep : ensureValidToken st now {} =
      (EnsureOutcome.awaitPromise 0,
        { isRefreshing := true, refreshPromise := some 0,
          refreshCalls := 1, nextPromiseId := 1 }) := by
    simp [ensureValidToken, ht, hNeed]
  have hrest := runEnsure_joins st now 0 hTok hNeed n
    { isRefreshing := true, refreshPromise := some 0, refreshCalls := 1, nextPromiseId := 1 }
    rfl rfl
  constructor
  · simp [runEnsure, hstep, hrest, List.replicate_succ]
  · simp [runEnsure, hstep, hrest]

/-- C3 (witness): three concurrent callers against an expired access token:
all three await promise 0 and one refresh call is started. -/
theorem C3_ensureValidToken_single_flight_witness :
    (runEnsure
      { access_token := some "tok",
        refresh_token := some "ref",
        expires_at := some 0,
        refresh_expires_at := some 500000,
        user_id := some "1" } 100 3 {}).1 = List.replicate 3 (EnsureOutcome.awaitPromise 0)
    ∧ (runEnsure
      { access_token := some "tok",
        refresh_token := some "ref",
        expires_at := some 0,
        refresh_expires_at := some 500000,
        user_id := some "1" } 100 3 {}).2.refreshCalls = 1 :=
  C3_ensureValidToken_single_flight
    { access_token := some "tok",
      refresh_token := some "ref",
      expires_at := some 0,
      refresh_expires_at := some 500000,
      user_id := some "1" } 100 2 (by decide) (by decide)

/-- C4 (counterexample): with the stored expiry at 0 and the current time
100 ms past it, the token is already expired, yet `shouldRefreshToken`
returns `true` — the claimed lower bound `0 < expiresAt - now` does not hold
of the code. -/
theorem C4_shouldRefresh_expired_counterexample :
    TokenStorage.shouldRefreshToken { expires_at := some 0 } 100 = true
    ∧ ¬ ((0 : Int) < 0 - 100 ∧ (0 : Int) - 100 ≤ 60000) := by decide

/-- C4 (amended): `shouldRefreshToken` is true iff the expiry is known and
`expiresAt - now <= 60000` ms — with no lower bound, so it is also true for
already-expired tokens — and false when the expiry is unknown;
`isTokenExpired` is true iff the expiry is unknown or `expiresAt <= now`. -/
theorem C4_tokenExpiry_predicates (st : TokenStorage) (now : Int) :
    (st.shouldRefreshToken now = true ↔
      ∃ e, st.getExpiresAt = some e ∧ e - now ≤ TOKEN_REFRESH_THRESHOLD_MS)
    ∧ (st.isTokenExpired now = true ↔
      st.getExpiresAt = none ∨ ∃ e, st.getExpiresAt = some e ∧ e ≤ now) := by
  cases h : st.getExpiresAt with
  | none => simp [TokenStorage.shouldRefreshToken, TokenStorage.isTokenExpired, h]
  | some e =>
    constructor
    · simp [TokenStorage.shouldRefreshToken, h]
    · simp [TokenStorage.isTokenExpired, h]

/-- C5 (code evaluated at the failing scenario): `login()` succeeds with a
resolved holding, installs the provisional session, spawns the background
`me()` fetch and clears the `isLoginInProgress` guard in its `finally`; when
the background fetch then rejects with a 401, the global handler is no longer
suppressed, so the code clears the token storage, discards the provisional
session and performs the redirect — the suppression the claim describes does
not happen. -/
theorem C5_login_background_401_redirects :
    (loginBg401Trace {}
      { user_id := 1,
        holding_id := some 5,
        role_code := "admin",
        access_token := "at",
        token_type := "bearer",
        expires_at := 1000,
        refresh_token := "rt",
        refresh_expires_at := 2000 }).redirects = 1
    ∧ (loginBg401Trace {}
      { user_id := 1,
        holding_id := some 5,
        role_code := "admin",
        access_token := "at",
        token_type := "bearer",
        expires_at := 1000,
        refresh_token := "rt",
        refresh_expires_at := 2000 }).user = none
    ∧ (loginBg401Trace {}
      { user_id := 1,
        holding_id := some 5,
        role_code := "admin",
        access_token := "at",
        token_type := "bearer",
        expires_at := 1000,
        refresh_token := "rt",
        refresh_expires_at := 2000 }).storage = ({} : TokenStorage)
    ∧ (loginFinally (loginRpcResolved (loginStart {})
      { user_id := 1,
        holding_id := some 5,
        role_code := "admin",
        access_token := "at",
        token_type := "bearer",
        expires_at := 1000,
        refresh_token := "rt",
        refresh_expires_at := 2000 })).user = some (provisionalUser
      { user_id := 1,
        holding_id := some 5,
        role_code := "admin",
        access_token := "at",
        token_type := "bearer",
        expires_at := 1000,
        refresh_token := "rt",
        refresh_expires_at := 2000 }) :=
  ⟨rfl, rfl, rfl, rfl⟩

/-- C6 (counterexample): the claim's body — `{ok: false,
code: "auth.session_expired", message: ...}` on HTTP 200 — does NOT trigger
the global auth-error callback: the flat shape does not match the latest
nested envelope and passes through as a success value with no callback fired,
and even re-shaped as the nested envelope the code `auth.session_expired` is
not in the fixed code set and a plain message contains no listed substring,
so the error is thrown with the callback not fired. -/
theorem C6_sessionExpired_code_no_trigger :
    V3.parseResponse (flatErrorBody "auth.session_expired" "expired")
      = (Except.ok (flatErrorBody "auth.session_expired" "expired"), false)
    ∧ (V3.parseResponse (nestedErrorBody "auth.session_expired" "expired")).2 = false :=
  ⟨rfl, rfl⟩

/-- C6 (amended): a nested v2 error envelope on a 2xx response triggers the
global auth-error callback when the classifier accepts its code/message (for
example a message containing AUTH_SESSION_EXPIRED — the bare code
`auth.session_expired` alone does not qualify); and the context handler is
one-shot: an un-suppressed first signal redirects exactly once, a second
signal before the latch resets changes nothing, and no teardown or redirect
happens while the `LoggingIn` or redirect-suppression flag is set. -/
theorem C6_authError_one_shot (code msg : String) (s : CtxState)
    (hauth : V3.isAuthError code msg = true) :
    (V3.parseResponse (nestedErrorBody code msg)).2 = true
    ∧ (s.isLoginInProgress = false → s.suppressAuthRedirect = false →
        s.hasHandledAuthError = false →
        (handleAuthError s).redirects = s.redirects + 1
        ∧ handleAuthError (handleAuthError s) = handleAuthError s)
    ∧ (s.isLoginInProgress = true → handleAuthError s = s)
    ∧ (s.suppressAuthRedirect = true → handleAuthError s = s) := by
  refine ⟨?_, fun hL hS hH => ⟨?_, ?_⟩, fun hL => ?_, fun hS => ?_⟩
  · simp [V3.parseResponse, V3.isV2Error, nestedErrorBody, V3.handleV2Error,
      Json.okIsFalse, Json.get?, Json.strField, Json.isObjectLike, List.lookup, hauth]
  · simp [handleAuthError, hL, hS, hH]
  · simp [handleAuthError, hL, hS, hH]
  · simp [handleAuthError, hL]
  · simp [handleAuthError, hS]

/-- C6 (witness): a P0001 error whose message carries AUTH_SESSION_EXPIRED
fires the callback, and a first un-suppressed signal redirects once. -/
theorem C6_authError_one_shot_witness :
    (V3.parseResponse (nestedErrorBody "P0001" "AUTH_SESSION_EXPIRED")).2 = true
    ∧ (handleAuthError {}).redirects = ({} : CtxState).redirects + 1 :=
  ⟨(C6_authError_one_shot "P0001" "AUTH_SESSION_EXPIRED" {} (by decide)).1,
   ((C6_authError_one_shot "P0001" "AUTH_SESSION_EXPIRED" {} (by decide)).2.1
     rfl rfl rfl).1⟩

/-- C7: `getPaginated` sends the `Range` header `"offset-rangeEnd"` with
`offset = (page-1)*pageSize` and `rangeEnd = offset+pageSize-1` (page 2 of
size 10 gives "10-19") together with `Prefer: count=exact`; `totalCount` is
the total parsed after the slash of a well-formed `"start-end/total"`
`Content-Range` header ("10-19/45" gives 45), and falls back to the response
body length when the header is absent or matches no slash-digits pattern. -/
theorem C7_getPaginated_spec (page pageSize : Int) (a b t : Nat) (xs : List Json)
    (s : String) (hmal : firstSlashDigits s.toList = none) :
    getPaginatedHeaders page pageSize =
      [("Range-Unit", "items"),
       ("Range", toString ((page - 1) * pageSize) ++ "-"
          ++ toString ((page - 1) * pageSize + pageSize - 1)),
       ("Prefer", "count=exact")]
    ∧ rangeHeaderValue 2 10 = "10-19"
    ∧ totalCount
        (some (String.mk (natDigits a ++ '-' :: (natDigits b ++ '/' :: natDigits t))))
        (Json.arr xs) = t
    ∧ totalCount (some "10-19/45") (Json.arr xs) = 45
    ∧ totalCount none (Json.arr xs) = xs.length
    ∧ totalCount (some s) (Json.arr xs) = xs.length
    ∧ getPaginatedResult true 200 "/contracts" (some "10-19/45")
        (Json.arr [Json.num 1, Json.num 2])
      = (Except.ok (Json.arr [Json.num 1, Json.num 2], 45), false) := by
  refine ⟨rfl, by decide, ?_, rfl, rfl, ?_, rfl⟩
  · have hpre : ∀ c ∈ natDigits a ++ '-' :: natDigits b, c ≠ '/' := by
      intro c hc
      rcases List.mem_append.mp hc with hc | hc
      · exact ne_slash_of_isDigit c (isDigit_of_mem_natDigits a c hc)
      · rcases List.mem_cons.mp hc with hc | hc
        · subst hc; decide
        · exact ne_slash_of_isDigit c (isDigit_of_mem_natDigits b c hc)
    have key := firstSlashDigits_clean_prefix (natDigits a ++ '-' :: natDigits b)
      (natDigits t) hpre (isDigit_of_mem_natDigits t) (natDigits_ne_nil t)
    have harr : (natDigits a ++ '-' :: natDigits b) ++ '/' :: natDigits t
        = natDigits a ++ '-' :: (natDigits b ++ '/' :: natDigits t) := by
      simp
    rw [harr] at key
    simp [totalCount, parseTotalFromContentRange, String.toList, key, digitsToNat_natDigits]
  · have hm2 : firstSlashDigits s.data = none := hmal
    simp [totalCount, parseTotalFromContentRange, hm2]

/-- C7 (witness): the theorem at page 2 of size 10, a one-row body and the
unparsable header "abc". -/
theorem C7_getPaginated_spec_witness :
    rangeHeaderValue 2 10 = "10-19"
    ∧ totalCount (some "abc") (Json.arr [Json.num 1]) = 1 :=
  ⟨(C7_getPaginated_spec 2 10 0 0 0 [] "abc" (by decide)).2.1,
   (C7_getPaginated_spec 2 10 0 0 0 [Json.num 1] "abc" (by decide)).2.2.2.2.2.1⟩

/-- C8: `logout` never throws — a failing logout RPC is swallowed — and it
always clears all five token keys and the session. -/
theorem C8_logout_always_clears (st : TokenStorage) (sess : SessionState)
    (rpc : Except ApiError Unit) :
    contextLogout st sess rpc =
      ⟨{}, { user := none, needsHoldingSelect := false }, none⟩ := by
  cases hrt : st.getRefreshToken with
  | none => simp [contextLogout, authLogout, hrt, TokenStorage.clearTokens]
  | some t => cases rpc <;> simp [contextLogout, authLogout, hrt, TokenStorage.clearTokens]

/-- C9: a `switchHolding` call that returns without throwing overwrote only
the `access_token` and `expires_at` keys with the switch RPC's values, left
`refresh_token`, `refresh_expires_at` and `user_id` unchanged, re-fetched the
full identity into the session, and left the holding-selection sub-state. -/
theorem C9_switchHolding_frame (st : TokenStorage) (sess : SessionState)
    (sr : Except ApiError SwitchHoldingResponse) (mr : Except ApiError UserInfo)
    (h : (contextSwitchHolding st sess sr mr).thrown = none) :
    ∃ r info, sr = Except.ok r ∧ mr = Except.ok info
      ∧ (contextSwitchHolding st sess sr mr).storage.access_token = some r.access_token
      ∧ (contextSwitchHolding st sess sr mr).storage.expires_at = some r.expires_at
      ∧ (contextSwitchHolding st sess sr mr).storage.refresh_token = st.refresh_token
      ∧ (contextSwitchHolding st sess sr mr).storage.refresh_expires_at = st.refresh_expires_at
      ∧ (contextSwitchHolding st sess sr mr).storage.user_id = st.user_id
      ∧ (contextSwitchHolding st sess sr mr).session.user = some info
      ∧ (contextSwitchHolding st sess sr mr).session.needsHoldingSelect = false := by
  cases sr with
  | error e => simp [contextSwitchHolding] at h
  | ok r =>
    cases mr with
    | error e => simp [contextSwitchHolding] at h
    | ok info =>
      exact ⟨r, info, rfl, rfl,
        by simp [contextSwitchHolding, switchHoldingStore],
        by simp [contextSwitchHolding, switchHoldingStore],
        by simp [contextSwitchHolding, switchHoldingStore],
        by simp [contextSwitchHolding, switchHoldingStore],
        by simp [contextSwitchHolding, switchHoldingStore],
        by simp [contextSwitchHolding],
        by simp [contextSwitchHolding]⟩

/-- C10: whenever `validateAndRefresh` resolves to `false` — the access or
refresh token missing, the refresh token expired, or the refresh RPC failed —
it has already removed all five persisted token keys: the storage it leaves
behind is empty. -/
theorem C10_validateAndRefresh_false_clears (st : TokenStorage) (now : Int)
    (rpc : Except ApiError TokenResponse)
    (h : (validateAndRefresh st now rpc).1 = false) :
    (validateAndRefresh st now rpc).2.access_token = none
    ∧ (validateAndRefresh st now rpc).2.refresh_token = none
    ∧ (validateAndRefresh st now rpc).2.expires_at = none
    ∧ (validateAndRefresh st now rpc).2.refresh_expires_at = none
    ∧ (validateAndRefresh st now rpc).2.user_id = none := by
  unfold validateAndRefresh at h ⊢
  split_ifs at h ⊢ with h1 h2 h3
  · exact ⟨rfl, rfl, rfl, rfl, rfl⟩
  · exact ⟨rfl, rfl, rfl, rfl, rfl⟩
  · cases rpc with
    | ok r => simp at h
    | error e => exact ⟨rfl, rfl, rfl, rfl, rfl⟩

/-- C10 (witness): the theorem at empty storage with a failing refresh RPC. -/
theorem C10_validateAndRefresh_false_clears_witness :
    (validateAndRefresh {} 0 (Except.error ⟨"X", "y", none, false⟩)).2.access_token = none
    ∧ (validateAndRefresh {} 0 (Except.error ⟨"X", "y", none, false⟩)).2.refresh_token = none
    ∧ (validateAndRefresh {} 0 (Except.error ⟨"X", "y", none, false⟩)).2.expires_at = none
    ∧ (validateAndRefresh {} 0 (Except.error ⟨"X", "y", none, false⟩)).2.refresh_expires_at = none
    ∧ (validateAndRefresh {} 0 (Except.error ⟨"X", "y", none, false⟩)).2.user_id = none :=
  C10_validateAndRefresh_false_clears {} 0 (Except.error ⟨"X", "y", none, false⟩) (by decide)

/-- C9 (witness): the frame theorem at a concrete successful switch. -/
theorem C9_switchHolding_frame_witness :
    ∃ r info,
      (Except.ok (⟨7, "new", "bearer", 9⟩ : SwitchHoldingResponse)
        : Except ApiError SwitchHoldingResponse) = Except.ok r
      ∧ (Except.ok (⟨7, "sid", "admin", some 1, none, none, []⟩ : UserInfo)
        : Except ApiError UserInfo) = Except.ok info
      ∧ (contextSwitchHolding ⟨some "old", some "r0", some 1, some 2, some "7"⟩ ⟨none, false⟩
          (Except.ok ⟨7, "new", "bearer", 9⟩)
          (Except.ok ⟨7, "sid", "admin", some 1, none, none, []⟩)).storage.access_token
        = some r.access_token
      ∧ (contextSwitchHolding ⟨some "old", some "r0", some 1, some 2, some "7"⟩ ⟨none, false⟩
          (Except.ok ⟨7, "new", "bearer", 9⟩)
          (Except.ok ⟨7, "sid", "admin", some 1, none, none, []⟩)).storage.expires_at
        = some r.expires_at
      ∧ (contextSwitchHolding ⟨some "old", some "r0", some 1, some 2, some "7"⟩ ⟨none, false⟩
          (Except.ok ⟨7, "new", "bearer", 9⟩)
          (Except.ok ⟨7, "sid", "admin", some 1, none, none, []⟩)).storage.refresh_token
        = (⟨some "old", some "r0", some 1, some 2, some "7"⟩ : TokenStorage).refresh_token
      ∧ (contextSwitchHolding ⟨some "old", some "r0", some 1, some 2, some "7"⟩ ⟨none, false⟩
          (Except.ok ⟨7, "new", "bearer", 9⟩)
          (Except.ok ⟨7, "sid", "admin", some 1, none, none, []⟩)).storage.refresh_expires_at
        = (⟨some "old", some "r0", some 1, some 2, some "7"⟩ : TokenStorage).refresh_expires_at
      ∧ (contextSwitchHolding ⟨some "old", some "r0", some 1, some 2, some "7"⟩ ⟨none, false⟩
          (Except.ok ⟨7, "new", "bearer", 9⟩)
          (Except.ok ⟨7, "sid", "admin", some 1, none, none, []⟩)).storage.user_id
        = (⟨some "old", some "r0", some 1, some 2, some "7"⟩ : TokenStorage).user_id
      ∧ (contextSwitchHolding ⟨some "old", some "r0", some 1, some 2, some "7"⟩ ⟨none, false⟩
          (Except.ok ⟨7, "new", "bearer", 9⟩)
          (Except.ok ⟨7, "sid", "admin", some 1, none, none, []⟩)).session.user = some info
      ∧ (contextSwitchHolding ⟨some "old", some "r0", some 1, some 2, some "7"⟩ ⟨none, false⟩
          (Except.ok ⟨7, "new", "bearer", 9⟩)
          (Except.ok ⟨7, "sid", "admin", some 1, none, none, []⟩)).session.needsHoldingSelect
        = false :=
  C9_switchHolding_frame ⟨some "old", some "r0", some 1, some 2, some "7"⟩ ⟨none, false⟩
    (Except.ok ⟨7, "new", "bearer", 9⟩)
    (Except.ok ⟨7, "sid", "admin", some 1, none, none, []⟩) rfl
